import Mathlib

/-!
Shallow embedding of the `hopsworks` login module
(`python/hopsworks/__init__.py`): the credential/connection resolver
(`login`), the project selector (`_prompt_project`, here `prompt_project`)
and `logout`, together with the process-wide session state, the
environment, the local file system and an abstract server oracle standing
for the out-of-scope `Connection` collaborator.

Interactive input is modelled explicitly: the value `getpass` would return
is a parameter `promptedKey`, and the numbered-menu selector consumes a
list of input strings; exhausting the list models interrupting the
otherwise unbounded retry loop.
-/

set_option autoImplicit false

namespace Hopsworks

/-- Decidable equality for `Except`, needed to evaluate claims on concrete
inputs. -/
instance {ε α : Type} [DecidableEq ε] [DecidableEq α] :
    DecidableEq (Except ε α) := fun a b =>
  match a, b with
  | Except.ok x, Except.ok y =>
    if h : x = y then Decidable.isTrue (by rw [h])
    else Decidable.isFalse (by simp [h])
  | Except.error x, Except.error y =>
    if h : x = y then Decidable.isTrue (by rw [h])
    else Decidable.isFalse (by simp [h])
  | Except.ok _, Except.error _ => Decidable.isFalse (by simp)
  | Except.error _, Except.ok _ => Decidable.isFalse (by simp)

/-- A project visible to a session: display name and browsable URL. -/
structure Proj where
  name : String
  url : String
deriving DecidableEq, Repr

/-- The environment variables the module reads: `REST_ENDPOINT` (marker for
running inside the platform), `HOPSWORKS_API_KEY`, `HOPSWORKS_PROJECT`,
`HOPSWORKS_HOST`, `HOPSWORKS_PORT`.  `none` models an unset variable. -/
structure EnvVars where
  restEndpoint : Option String
  apiKey : Option String
  project : Option String
  host : Option String
  port : Option String
deriving DecidableEq, Repr

/-- The environment with no variable set. -/
def EnvVars.empty : EnvVars := ⟨none, none, none, none, none⟩

/-- The Python variable `port` holds the `int` argument (or default `443`)
or, after line `port = os.environ["HOPSWORKS_PORT"]`, the raw environment
string; this sum type mirrors that. -/
inductive PortVal where
  | nat (n : Nat)
  | str (s : String)
deriving DecidableEq, Repr

/-- Hardcoded managed-service default host (`c.app.hopsworks.ai`). -/
def defaultHost : String := "c.app.hopsworks.ai"

/-- Default port argument (`443`). -/
def defaultPort : Nat := 443

/-- Lines 116-122: `api_key` is the `HOPSWORKS_API_KEY` environment value
exactly when neither `api_key_value` nor `api_key_file` was passed. -/
def resolveApiKeyEnv (api_key_value api_key_file : Option String)
    (env : EnvVars) : Option String :=
  if api_key_value = none ∧ api_key_file = none then env.apiKey else none

/-- Lines 125-126: the `project` argument, falling back to
`HOPSWORKS_PROJECT`. -/
def resolveProject (project : Option String) (env : EnvVars) : Option String :=
  match project with
  | some p => some p
  | none => env.project

/-- Lines 129-132: the `host` argument, falling back to `HOPSWORKS_HOST`,
falling back to the managed-service default. -/
def resolveHost (host : Option String) (env : EnvVars) : String :=
  match host, env.host with
  | some h, _ => h
  | none, some h => h
  | none, none => defaultHost

/-- Lines 135-136: `HOPSWORKS_PORT` is consulted only when `port` still
equals the default `443`; the environment value is kept as a string. -/
def resolvePort (port : Nat) (env : EnvVars) : PortVal :=
  if port = defaultPort then
    match env.port with
    | some s => PortVal.str s
    | none => PortVal.nat port
  else PortVal.nat port

/-- The local file system as an association list from path to content. -/
abbrev FileSys := List (String × String)

/-- Content of the file at `p`, if it exists. -/
def readFile (fs : FileSys) (p : String) : Option String :=
  (fs.find? (fun e => e.1 == p)).map (fun e => e.2)

/-- `os.path.exists`. -/
def fileExists (fs : FileSys) (p : String) : Bool :=
  (readFile fs p).isSome

/-- Write (create or truncate) the file at `p` with content `c`. -/
def writeFile (fs : FileSys) (p c : String) : FileSys :=
  (p, c) :: fs.filter (fun e => !(e.1 == p))

/-- `os.remove`. -/
def removeFile (fs : FileSys) (p : String) : FileSys :=
  fs.filter (fun e => !(e.1 == p))

/-- Lines 144-158: the api-key if-chain up to (but excluding) the cached
file branch: explicit value argument wins, then an explicit file path
argument (raising `IOError` when the path does not exist), then whatever
lines 116-122 took from the environment.  The error payload is the
`IOError` message. -/
def resolveApiKey (api_key_value api_key_file : Option String)
    (env : EnvVars) (fs : FileSys) : Except String (Option String) :=
  let api_key := resolveApiKeyEnv api_key_value api_key_file env
  match api_key_value with
  | some v => Except.ok (some v)
  | none =>
    match api_key_file with
    | some f =>
      if fileExists fs f then Except.ok (readFile fs f)
      else Except.error ("Could not find api key file on path: " ++ f)
    | none => Except.ok api_key

/-! ### Project selector (`_prompt_project`, lines 197-233) -/

/-- Rejection message for a parsed but non-positive selection (line 216). -/
def msgNonPositive : String := "Invalid input, must be greater than or equal to 1"

/-- Rejection message for non-numeric or out-of-range input
(lines 222-228). -/
def msgNotInteger : String :=
  "Invalid input, should be an integer from the list of projects."

/-- Error message when no project is visible (line 201). -/
def msgNoProject : String := "Could not find any project"

/-- Error message when the requested project is absent (line 233). -/
def msgProjectNotFound (p : String) : String := "Could not find project " ++ p

/-- Drop leading whitespace characters. -/
def dropLeadingWs (cs : List Char) : List Char :=
  match cs with
  | [] => []
  | c :: rest => if c.isWhitespace then dropLeadingWs rest else c :: rest

/-- Strip whitespace from both ends of a character list. -/
def trimChars (cs : List Char) : List Char :=
  ((dropLeadingWs ((dropLeadingWs cs).reverse)).reverse)

/-- Python `str.strip()`. -/
def pyStrip (s : String) : String := String.mk (trimChars s.data)

/-- Decimal value of a digit run; `none` on a non-digit. -/
def digitsVal (cs : List Char) (acc : Nat) : Option Nat :=
  match cs with
  | [] => some acc
  | c :: rest =>
    if c.isDigit then digitsVal rest (acc * 10 + (c.toNat - 48)) else none

/-- Parse a non-empty all-digit run, `none` otherwise. -/
def parseDigits (cs : List Char) : Option Nat :=
  match cs with
  | [] => none
  | _ => digitsVal cs 0

/-- Python `int(...)` on the selector input: optional surrounding
whitespace, an optional sign, then decimal digits; anything else raises
`ValueError` (modelled as `none`). -/
def parsePyInt (s : String) : Option Int :=
  match trimChars s.data with
  | '-' :: rest => (parseDigits rest).map (fun n => -(n : Int))
  | '+' :: rest => (parseDigits rest).map (fun n => (n : Int))
  | cs => (parseDigits cs).map (fun n => (n : Int))

/-- Errors `_prompt_project` can signal: a `ProjectException` with its
message, or exhaustion of the modelled input stream (the real loop is
unbounded). -/
inductive PromptErr where
  | projectException (msg : String)
  | outOfInput
deriving DecidableEq, Repr

/-- Successful selection: the chosen project, the number of `input()`
reads issued, and the rejection messages printed (in order). -/
structure SelectOk where
  proj : Proj
  promptsIssued : Nat
  rejections : List String
deriving DecidableEq, Repr

/-- The inner `while True` of lines 209-228: read an input, parse it as an
int (`ValueError` re-prompts), reject non-positive values, index the
1-based selection (`IndexError` re-prompts). -/
def selectLoop (projects : List Proj) :
    List String → Nat → List String → Except PromptErr SelectOk
  | [], _, _ => Except.error PromptErr.outOfInput
  | s :: rest, prompts, rejs =>
    match parsePyInt s with
    | none => selectLoop projects rest (prompts + 1) (rejs ++ [msgNotInteger])
    | some i =>
      if i ≤ 0 then
        selectLoop projects rest (prompts + 1) (rejs ++ [msgNonPositive])
      else
        match projects.get? (i.toNat - 1) with
        | some p => Except.ok ⟨p, prompts + 1, rejs⟩
        | none => selectLoop projects rest (prompts + 1) (rejs ++ [msgNotInteger])

/-- Lines 230-232: linear search, first project whose name equals the
target. -/
def searchByName (projects : List Proj) (target : String) : Option Proj :=
  match projects with
  | [] => none
  | p :: rest => if p.name == target then some p else searchByName rest target

/-- `_prompt_project` (lines 197-233).  With no requested name: zero
projects raise a `ProjectException`, one project is returned silently,
several enter the interactive loop.  With a requested name: linear search,
`ProjectException` naming the request when absent. -/
def prompt_project (projects : List Proj) (project : Option String)
    (inputs : List String) : Except PromptErr SelectOk :=
  match project with
  | none =>
    match projects with
    | [] => Except.error (PromptErr.projectException msgNoProject)
    | [p] => Except.ok ⟨p, 0, []⟩
    | _ => selectLoop projects inputs 0 []
  | some p =>
    match searchByName projects p with
    | some proj => Except.ok ⟨proj, 0, []⟩
    | none => Except.error (PromptErr.projectException (msgProjectNotFound p))

/-! ### Session state, server oracle and `login` (lines 55-194) -/

/-- An external `Connection` instance: the host, port and credential it
was created with. -/
structure Conn where
  host : String
  port : PortVal
  apiKey : Option String
deriving DecidableEq, Repr

/-- The process-wide `_saas_connection` binding: the inert placeholder
(the `Connection.connection` classmethod), a live external connection, or
the argument-less connection created on the inside-platform path. -/
inductive ConnState where
  | placeholder
  | live (c : Conn)
  | liveInside
deriving DecidableEq, Repr

/-- The remote platform, out of scope and assumed correct: which
credentials it accepts, which projects each credential sees and the
current project of the inside-platform path. -/
structure Server where
  validKey : Option String → Bool
  projects : Option String → List Proj
  currentProject : Proj

/-- Process-wide state: the file system, the environment, the working
directory, the `_saas_connection` binding and the connections closed so
far. -/
structure World where
  fs : FileSys
  env : EnvVars
  cwd : String
  saas : ConnState
  closed : List Conn
deriving DecidableEq, Repr

/-- `os.getcwd() + "/.hw_api_key"` (line 140). -/
def World.apiKeyPath (w : World) : String := w.cwd ++ "/.hw_api_key"

/-- `os.remove` on the world. -/
def World.deleteFile (w : World) (p : String) : World :=
  { w with fs := removeFile w.fs p }

/-- `logout` (lines 236-240): close the session if it is a real
`Connection` instance, then reset the binding to the placeholder. -/
def logout (w : World) : World :=
  match w.saas with
  | ConnState.live c =>
    { w with saas := ConnState.placeholder, closed := w.closed ++ [c] }
  | ConnState.liveInside => { w with saas := ConnState.placeholder }
  | ConnState.placeholder => { w with saas := ConnState.placeholder }

/-- Creating a `Connection`: `none` models the constructor raising
`RestAPIError` because the server rejects the credential. -/
def connect (server : Server) (host : String) (port : PortVal)
    (apiKey : Option String) : Option Conn :=
  if server.validKey apiKey then some ⟨host, port, apiKey⟩ else none

/-- Everything `login` can raise: the `IOError` of a missing key file, a
`RestAPIError`, a `ProjectException`, or exhaustion of the modelled
selector input. -/
inductive LoginError where
  | ioError (msg : String)
  | restAPIError
  | projectException (msg : String)
  | outOfInput
deriving DecidableEq, Repr

/-- Observable outcome of `login`: the returned project or raised error,
the final process-wide state, and whether `getpass` was invoked. -/
structure LoginOut where
  result : Except LoginError Proj
  world : World
  keyPrompted : Bool
deriving DecidableEq, Repr

/-- Lines 186-194: create the connection (on `RestAPIError`: `logout`,
re-raise), bind it process-wide, then delegate to `_prompt_project`; a
`ProjectException` from the selector is not caught. -/
def establishAndSelect (server : Server) (host : String) (port : PortVal)
    (api_key : Option String) (project : Option String)
    (inputs : List String) (prompted : Bool) (w : World) : LoginOut :=
  match connect server host port api_key with
  | none => ⟨Except.error LoginError.restAPIError, logout w, prompted⟩
  | some c =>
    let w' : World := { w with saas := ConnState.live c }
    match prompt_project (server.projects api_key) project inputs with
    | Except.ok r => ⟨Except.ok r.proj, w', prompted⟩
    | Except.error (PromptErr.projectException m) =>
      ⟨Except.error (LoginError.projectException m), w', prompted⟩
    | Except.error PromptErr.outOfInput =>
      ⟨Except.error LoginError.outOfInput, w', prompted⟩

/-- Lines 173-194: when no key was resolved and the host is the
managed-service default, prompt for one via `getpass` and persist its
stripped value to the cache file; then establish the session and select
the project.  Note line 187 connects with the unstripped prompted key. -/
def finishLogin (server : Server) (host : String) (port : PortVal)
    (api_key : Option String) (project : Option String)
    (promptedKey : String) (inputs : List String) (w : World) : LoginOut :=
  if api_key = none ∧ host = defaultHost then
    let w' : World :=
      { w with fs := writeFile w.fs w.apiKeyPath (pyStrip promptedKey) }
    establishAndSelect server host port (some promptedKey) project inputs true w'
  else
    establishAndSelect server host port api_key project inputs false w

/-- Lines 159-171: connect with the cached `.hw_api_key` file; on success
select the project (a `ProjectException` propagates uncaught); on
`RestAPIError` run `logout`, delete the stale cache and fall through to
the prompting phase with the environment-resolved key. -/
def cachedBranch (server : Server) (host : String) (port : PortVal)
    (api_key : Option String) (project : Option String)
    (promptedKey : String) (inputs : List String) (w : World) : LoginOut :=
  let cachedKey := readFile w.fs w.apiKeyPath
  match connect server host port cachedKey with
  | some c =>
    let w' : World := { w with saas := ConnState.live c }
    match prompt_project (server.projects cachedKey) project inputs with
    | Except.ok r => ⟨Except.ok r.proj, w', false⟩
    | Except.error (PromptErr.projectException m) =>
      ⟨Except.error (LoginError.projectException m), w', false⟩
    | Except.error PromptErr.outOfInput =>
      ⟨Except.error LoginError.outOfInput, w', false⟩
  | none =>
    finishLogin server host port api_key project promptedKey inputs
      (World.deleteFile (logout w) w.apiKeyPath)

/-- The five keyword arguments of `login` with their Python defaults. -/
structure LoginArgs where
  host : Option String
  port : Nat
  project : Option String
  api_key_value : Option String
  api_key_file : Option String
deriving DecidableEq, Repr

/-- The all-default call `login()`. -/
def LoginArgs.default : LoginArgs := ⟨none, 443, none, none, none⟩

/-- `login` (lines 55-194): reset any previous session, short-circuit
inside the platform, resolve host/port/project/api-key from arguments and
environment, take the explicit value/file credential or the cached-file
branch, prompt if still without a key at the default host, then establish
the session and select the project. -/
def login (args : LoginArgs) (server : Server) (promptedKey : String)
    (inputs : List String) (w0 : World) : LoginOut :=
  let w := logout w0
  if w.env.restEndpoint.isSome then
    ⟨Except.ok server.currentProject, { w with saas := ConnState.liveInside }, false⟩
  else
    let project := resolveProject args.project w.env
    let host := resolveHost args.host w.env
    let port := resolvePort args.port w.env
    match args.api_key_value, args.api_key_file with
    | none, none =>
      let api_key := resolveApiKeyEnv none none w.env
      if fileExists w.fs w.apiKeyPath ∧ host = defaultHost then
        cachedBranch server host port api_key project promptedKey inputs w
      else
        finishLogin server host port api_key project promptedKey inputs w
    | v, f =>
      match resolveApiKey v f w.env w.fs with
      | Except.error m => ⟨Except.error (LoginError.ioError m), w, false⟩
      | Except.ok api_key =>
        finishLogin server host port api_key project promptedKey inputs w

/-! ### Spec-side resolution (for the refinement claim C1)

These definitions follow the spec's words — "the resolved value equals the
highest-precedence non-empty source (argument > env var > default)" — and
are to be compared with the resolvers read off the source. -/

/-- Spec side: highest-precedence non-empty source among argument,
environment variable and default. -/
def specResolve (arg envVal : Option String) (dflt : String) : String :=
  (arg <|> envVal).getD dflt

/-- Spec side, no default: argument, else environment variable. -/
def specResolveOpt (arg envVal : Option String) : Option String :=
  arg <|> envVal

/-- Spec side for the port: the argument slot counts as non-empty exactly
when it differs from the default `443` ("env var only consulted when port
still equals the default"); the environment value stays a string. -/
def specResolvePort (arg : Nat) (envVal : Option String) : PortVal :=
  if arg ≠ defaultPort then PortVal.nat arg
  else
    match envVal with
    | some e => PortVal.str e
    | none => PortVal.nat defaultPort

/-! ## Lemmas -/

theorem logout_saas (w : World) : (logout w).saas = ConnState.placeholder := by
  cases h : w.saas <;> simp [logout, h]

theorem logout_fs (w : World) : (logout w).fs = w.fs := by
  cases h : w.saas <;> simp [logout, h]

theorem logout_env (w : World) : (logout w).env = w.env := by
  cases h : w.saas <;> simp [logout, h]

theorem logout_apiKeyPath (w : World) :
    (logout w).apiKeyPath = w.apiKeyPath := by
  cases h : w.saas <;> simp [logout, World.apiKeyPath, h]

theorem logout_of_placeholder (w : World)
    (h : w.saas = ConnState.placeholder) : logout w = w := by
  cases w with
  | mk fs env cwd saas closed => cases h; rfl

theorem logout_idem (w : World) : logout (logout w) = logout w :=
  logout_of_placeholder _ (logout_saas w)

theorem readFile_writeFile (fs : FileSys) (p c : String) :
    readFile (writeFile fs p c) p = some c := by
  simp [readFile, writeFile, List.find?]

theorem readFile_removeFile (fs : FileSys) (p : String) :
    readFile (removeFile fs p) p = none := by
  induction fs with
  | nil => rfl
  | cons a fs ih =>
    by_cases h : a.1 == p
    · simp only [removeFile, List.filter, h] at ih ⊢
      exact ih
    · simp only [removeFile, List.filter, h] at ih ⊢
      simp only [readFile, List.find?, h] at ih ⊢
      exact ih

theorem fileExists_removeFile (fs : FileSys) (p : String) :
    fileExists (removeFile fs p) p = false := by
  simp [fileExists, readFile_removeFile]

theorem searchByName_eq_find (ps : List Proj) (target : String) :
    searchByName ps target = ps.find? (fun p => p.name == target) := by
  induction ps with
  | nil => rfl
  | cons p rest ih =>
    by_cases h : p.name == target <;> simp [searchByName, List.find?, h, ih]

theorem resolveProject_empty (pa : Option String) :
    resolveProject pa EnvVars.empty = pa := by
  cases pa <;> rfl

theorem EnvVars.empty_restEndpoint : EnvVars.empty.restEndpoint = none := rfl

theorem EnvVars.empty_apiKey : EnvVars.empty.apiKey = none := rfl

theorem EnvVars.empty_host : EnvVars.empty.host = none := rfl

theorem EnvVars.empty_port : EnvVars.empty.port = none := rfl

theorem deleteFile_fs (w : World) (p : String) :
    (World.deleteFile w p).fs = removeFile w.fs p := rfl

theorem deleteFile_apiKeyPath (w : World) (p : String) :
    (World.deleteFile w p).apiKeyPath = w.apiKeyPath := rfl

theorem deleteFile_closed (w : World) (p : String) :
    (World.deleteFile w p).closed = w.closed := rfl

theorem estab_keyPrompted (server : Server) (host : String) (port : PortVal)
    (key project : Option String) (inputs : List String) (b : Bool) (w : World) :
    (establishAndSelect server host port key project inputs b w).keyPrompted = b := by
  cases hc : connect server host port key with
  | none => simp [establishAndSelect, hc]
  | some c =>
    cases hp : prompt_project (server.projects key) project inputs with
    | ok r => simp [establishAndSelect, hc, hp]
    | error e => cases e <;> simp [establishAndSelect, hc, hp]

theorem estab_fs (server : Server) (host : String) (port : PortVal)
    (key project : Option String) (inputs : List String) (b : Bool) (w : World) :
    (establishAndSelect server host port key project inputs b w).world.fs = w.fs := by
  cases hc : connect server host port key with
  | none => simp [establishAndSelect, hc, logout_fs]
  | some c =>
    cases hp : prompt_project (server.projects key) project inputs with
    | ok r => simp [establishAndSelect, hc, hp]
    | error e => cases e <;> simp [establishAndSelect, hc, hp]

theorem estab_restAPI (server : Server) (host : String) (port : PortVal)
    (key project : Option String) (inputs : List String) (b : Bool) (w : World)
    (h : (establishAndSelect server host port key project inputs b w).result
        = Except.error LoginError.restAPIError) :
    (establishAndSelect server host port key project inputs b w).world.saas
      = ConnState.placeholder := by
  cases hc : connect server host port key with
  | none => simp [establishAndSelect, hc, logout_saas]
  | some c =>
    cases hp : prompt_project (server.projects key) project inputs with
    | ok r => simp [establishAndSelect, hc, hp] at h
    | error e => cases e <;> simp [establishAndSelect, hc, hp] at h

theorem estab_projErr (server : Server) (host : String) (port : PortVal)
    (key project : Option String) (inputs : List String) (b : Bool) (w : World)
    (m : String)
    (h : (establishAndSelect server host port key project inputs b w).result
        = Except.error (LoginError.projectException m)) :
    ∃ c, (establishAndSelect server host port key project inputs b w).world.saas
          = ConnState.live c
       ∧ (establishAndSelect server host port key project inputs b w).world.closed
          = w.closed := by
  cases hc : connect server host port key with
  | none => simp [establishAndSelect, hc] at h
  | some c =>
    cases hp : prompt_project (server.projects key) project inputs with
    | ok r => simp [establishAndSelect, hc, hp] at h
    | error e =>
      cases e with
      | projectException m2 =>
        exact ⟨c, by simp [establishAndSelect, hc, hp],
                  by simp [establishAndSelect, hc, hp]⟩
      | outOfInput => simp [establishAndSelect, hc, hp] at h

theorem finish_prompt (server : Server) (port : PortVal)
    (project : Option String) (k : String) (inputs : List String) (w : World) :
    finishLogin server defaultHost port none project k inputs w
      = establishAndSelect server defaultHost port (some k) project inputs true
          { w with fs := writeFile w.fs w.apiKeyPath (pyStrip k) } := by
  simp [finishLogin]

theorem finish_restAPI (server : Server) (host : String) (port : PortVal)
    (api_key project : Option String) (k : String) (inputs : List String)
    (w : World)
    (h : (finishLogin server host port api_key project k inputs w).result
        = Except.error LoginError.restAPIError) :
    (finishLogin server host port api_key project k inputs w).world.saas
      = ConnState.placeholder := by
  by_cases hc : api_key = none ∧ host = defaultHost
  · simp only [finishLogin, if_pos hc] at h ⊢
    exact estab_restAPI _ _ _ _ _ _ _ _ h
  · simp only [finishLogin, if_neg hc] at h ⊢
    exact estab_restAPI _ _ _ _ _ _ _ _ h

theorem finish_projErr (server : Server) (host : String) (port : PortVal)
    (api_key project : Option String) (k : String) (inputs : List String)
    (w : World) (m : String)
    (h : (finishLogin server host port api_key project k inputs w).result
        = Except.error (LoginError.projectException m)) :
    ∃ c, (finishLogin server host port api_key project k inputs w).world.saas
          = ConnState.live c
       ∧ (finishLogin server host port api_key project k inputs w).world.closed
          = w.closed := by
  by_cases hc : api_key = none ∧ host = defaultHost
  · simp only [finishLogin, if_pos hc] at h ⊢
    exact estab_projErr _ _ _ _ _ _ _ _ _ h
  · simp only [finishLogin, if_neg hc] at h ⊢
    exact estab_projErr _ _ _ _ _ _ _ _ _ h

theorem cached_restAPI (server : Server) (host : String) (port : PortVal)
    (api_key project : Option String) (k : String) (inputs : List String)
    (w : World)
    (h : (cachedBranch server host port api_key project k inputs w).result
        = Except.error LoginError.restAPIError) :
    (cachedBranch server host port api_key project k inputs w).world.saas
      = ConnState.placeholder := by
  cases hc : connect server host port (readFile w.fs w.apiKeyPath) with
  | some c =>
    cases hp : prompt_project (server.projects (readFile w.fs w.apiKeyPath))
        project inputs with
    | ok r => simp [cachedBranch, hc, hp] at h
    | error e => cases e <;> simp [cachedBranch, hc, hp] at h
  | none =>
    simp only [cachedBranch, hc] at h ⊢
    exact finish_restAPI _ _ _ _ _ _ _ _ h

theorem cached_projErr (server : Server) (host : String) (port : PortVal)
    (api_key project : Option String) (k : String) (inputs : List String)
    (w : World) (m : String) (hw : w.saas = ConnState.placeholder)
    (h : (cachedBranch server host port api_key project k inputs w).result
        = Except.error (LoginError.projectException m)) :
    ∃ c, (cachedBranch server host port api_key project k inputs w).world.saas
          = ConnState.live c
       ∧ (cachedBranch server host port api_key project k inputs w).world.closed
          = w.closed := by
  cases hc : connect server host port (readFile w.fs w.apiKeyPath) with
  | some c =>
    cases hp : prompt_project (server.projects (readFile w.fs w.apiKeyPath))
        project inputs with
    | ok r => simp [cachedBranch, hc, hp] at h
    | error e =>
      cases e with
      | projectException m2 =>
        exact ⟨c, by simp [cachedBranch, hc, hp],
                  by simp [cachedBranch, hc, hp]⟩
      | outOfInput => simp [cachedBranch, hc, hp] at h
  | none =>
    simp only [cachedBranch, hc] at h ⊢
    obtain ⟨c, h1, h2⟩ := finish_projErr _ _ _ _ _ _ _ _ _ h
    refine ⟨c, h1, ?_⟩
    rw [h2, deleteFile_closed, logout_of_placeholder w hw]

/-! ## Claims -/

/-- Claim C1: for every combination of sources, `login` resolves host, port,
project and API key to the highest-precedence non-empty source —
argument over environment variable over default — independently for each
parameter.  For the port, the argument slot is non-empty exactly when it
differs from the Python default `443`; for the API key, a file-path
argument also outranks the environment variable and there is no default. -/
theorem C1_param_resolution (a : Option String) (p : Nat)
    (pr v : Option String) (f : String) (env : EnvVars) (fs : FileSys) :
    resolveHost a env = specResolve a env.host defaultHost
  ∧ resolveProject pr env = specResolveOpt pr env.project
  ∧ resolvePort p env = specResolvePort p env.port
  ∧ resolveApiKey v none env fs = Except.ok (specResolveOpt v env.apiKey)
  ∧ resolveApiKey none (some f) env fs =
      (match readFile fs f with
       | some c => Except.ok (some c)
       | none => Except.error ("Could not find api key file on path: " ++ f)) := by
  refine ⟨?_, ?_, ?_, ?_, ?_⟩
  · cases a <;> cases hh : env.host <;>
      simp [resolveHost, specResolve, hh]
  · cases pr <;> simp [resolveProject, specResolveOpt]
  · by_cases hp : p = defaultPort <;> cases he : env.port <;>
      simp [resolvePort, specResolvePort, hp, he]
  · cases v <;> simp [resolveApiKey, resolveApiKeyEnv, specResolveOpt]
  · cases hr : readFile fs f <;>
      simp [resolveApiKey, resolveApiKeyEnv, fileExists, hr]

/-- Claim C2 counterexample: with an empty project list and a requested
`project_name`, selection fails with the "project not found" error naming
the request, not with the "no project found" error the claim demands for
every value of `project_name`. -/
theorem C2_counterexample :
    prompt_project [] (some "x") []
      = Except.error (PromptErr.projectException (msgProjectNotFound "x"))
  ∧ msgProjectNotFound "x" ≠ msgNoProject := by
  exact ⟨rfl, by decide⟩

/-- Claim C2 amended: for an empty project list selection always fails with a
`ProjectException`, but its message depends on `project_name`: the
"no project found" message when omitted, the "project not found" message
naming the request when given. -/
theorem C2_empty_always_fails (name : Option String) (inputs : List String) :
    prompt_project [] name inputs
      = Except.error (PromptErr.projectException
          (match name with
           | none => msgNoProject
           | some n => msgProjectNotFound n)) := by
  cases name <;> rfl

/-- Claim C6: with at least two projects and no requested name, the input
sequence "0", "x", "2" issues three prompts — two re-prompts, first
rejecting the non-positive entry, then the non-numeric entry — and
returns the second project in listed order. -/
theorem C6_reprompt_sequence (p1 p2 : Proj) (rest : List Proj) :
    prompt_project (p1 :: p2 :: rest) none ["0", "x", "2"]
      = Except.ok ⟨p2, 3, [msgNonPositive, msgNotInteger]⟩ := rfl

/-- Claim C7: with a requested name, selection is a linear search returning the
first exact name match, and fails with the "project not found" error
naming the request when no project matches. -/
theorem C7_named_search (ps : List Proj) (name : String)
    (inputs : List String) :
    searchByName ps name = ps.find? (fun p => p.name == name)
  ∧ prompt_project ps (some name) inputs =
      (match ps.find? (fun p => p.name == name) with
       | some p => Except.ok ⟨p, 0, []⟩
       | none =>
         Except.error (PromptErr.projectException (msgProjectNotFound name))) := by
  refine ⟨searchByName_eq_find ps name, ?_⟩
  simp [prompt_project, searchByName_eq_find]

/-- Claim C8: with exactly one visible project and no requested name, selection
returns that project having issued zero interactive prompts. -/
theorem C8_single_project (p : Proj) (inputs : List String) :
    prompt_project [p] none inputs = Except.ok ⟨p, 0, []⟩ := rfl

/-- Claim C9: `logout` twice in succession equals `logout` once (the second
call is a no-op - it never fails, being a total function), and after any
`logout` the process-wide state is the inert placeholder. -/
theorem C9_logout_idempotent (w : World) :
    logout (logout w) = logout w
  ∧ (logout w).saas = ConnState.placeholder :=
  ⟨logout_idem w, logout_saas w⟩

/-- Claim C3: whenever `login` raises `RestAPIError`, the process-wide session
state was torn down via `logout` before the error reached the caller: the
final state is the inert placeholder, never a partly-built session. -/
theorem C3_restAPIError_teardown (args : LoginArgs) (server : Server)
    (k : String) (inputs : List String) (w0 : World) :
    (login args server k inputs w0).result = Except.error LoginError.restAPIError →
    (login args server k inputs w0).world.saas = ConnState.placeholder := by
  simp only [login]
  split
  · intro h; simp at h
  · split
    · split
      · exact fun h => cached_restAPI _ _ _ _ _ _ _ _ h
      · exact fun h => finish_restAPI _ _ _ _ _ _ _ _ h
    · split
      · intro h; simp at h
      · exact fun h => finish_restAPI _ _ _ _ _ _ _ _ h

/-- Claim C3 witness: a server rejecting every credential makes `login` raise
`RestAPIError` and leaves the placeholder state. -/
theorem C3_witness :
    (login LoginArgs.default ⟨fun _ => false, fun _ => [], ⟨"p", "u"⟩⟩ "k" []
        ⟨[], EnvVars.empty, "", ConnState.placeholder, []⟩).result
      = Except.error LoginError.restAPIError
  ∧ (login LoginArgs.default ⟨fun _ => false, fun _ => [], ⟨"p", "u"⟩⟩ "k" []
        ⟨[], EnvVars.empty, "", ConnState.placeholder, []⟩).world.saas
      = ConnState.placeholder :=
  ⟨by decide, C3_restAPIError_teardown _ _ _ _ _ (by decide)⟩

/-- Claim C10: when a `ProjectException` from the project selector escapes
`login`, the newly created connection stays bound as the process-wide
session: it is neither closed nor reset to the placeholder (only
`RestAPIError` triggers the logout-on-failure path), and no connection is
closed beyond those closed by the initial `logout` call. -/
theorem C10_projectException_leaves_live (args : LoginArgs) (server : Server)
    (k : String) (inputs : List String) (w0 : World) (m : String) :
    (login args server k inputs w0).result
        = Except.error (LoginError.projectException m) →
    ∃ c, (login args server k inputs w0).world.saas = ConnState.live c
       ∧ (login args server k inputs w0).world.closed = (logout w0).closed := by
  simp only [login]
  split
  · intro h; simp at h
  · split
    · split
      · exact fun h => cached_projErr _ _ _ _ _ _ _ _ _ (logout_saas w0) h
      · exact fun h => finish_projErr _ _ _ _ _ _ _ _ _ h
    · split
      · intro h; simp at h
      · exact fun h => finish_projErr _ _ _ _ _ _ _ _ _ h

/-- Claim C10 witness: a server accepting every credential but exposing no
project makes the selector raise, and the live connection survives. -/
theorem C10_witness :
    (login LoginArgs.default ⟨fun _ => true, fun _ => [], ⟨"p", "u"⟩⟩ "k" []
        ⟨[], EnvVars.empty, "", ConnState.placeholder, []⟩).result
      = Except.error (LoginError.projectException msgNoProject)
  ∧ ∃ c, (login LoginArgs.default ⟨fun _ => true, fun _ => [], ⟨"p", "u"⟩⟩ "k" []
          ⟨[], EnvVars.empty, "", ConnState.placeholder, []⟩).world.saas
        = ConnState.live c
      ∧ (login LoginArgs.default ⟨fun _ => true, fun _ => [], ⟨"p", "u"⟩⟩ "k" []
          ⟨[], EnvVars.empty, "", ConnState.placeholder, []⟩).world.closed
        = (logout ⟨[], EnvVars.empty, "", ConnState.placeholder, []⟩).closed :=
  ⟨by decide, C10_projectException_leaves_live _ _ _ _ _ msgNoProject (by decide)⟩

/-- Claim C4: when the cache file exists, the host resolves to the
managed-service default and the server rejects the cached key, `login`
deletes the cache file and falls through to the prompting phase on a
world where the cache file no longer exists; `getpass` is invoked and the
cache afterwards holds the newly entered (stripped) key, so the stale key
is not what a subsequent call reuses. -/
theorem C4_stale_cache_recovery (w : World) (server : Server)
    (stale k : String) (pa : Option String) (inputs : List String)
    (henv : w.env = EnvVars.empty)
    (hfile : readFile w.fs w.apiKeyPath = some stale)
    (hreject : server.validKey (some stale) = false)
    (hne : pyStrip k ≠ stale) :
    login ⟨none, 443, pa, none, none⟩ server k inputs w
      = finishLogin server defaultHost (PortVal.nat 443) none pa k inputs
          (World.deleteFile (logout w) w.apiKeyPath)
  ∧ fileExists (World.deleteFile (logout w) w.apiKeyPath).fs w.apiKeyPath = false
  ∧ (login ⟨none, 443, pa, none, none⟩ server k inputs w).keyPrompted = true
  ∧ readFile (login ⟨none, 443, pa, none, none⟩ server k inputs w).world.fs
      w.apiKeyPath = some (pyStrip k)
  ∧ readFile (login ⟨none, 443, pa, none, none⟩ server k inputs w).world.fs
      w.apiKeyPath ≠ some stale := by
  have henv' : (logout w).env = EnvVars.empty := by rw [logout_env, henv]
  have hE : login ⟨none, 443, pa, none, none⟩ server k inputs w
      = finishLogin server defaultHost (PortVal.nat 443) none pa k inputs
          (World.deleteFile (logout w) w.apiKeyPath) := by
    simp [login, henv', logout_fs, logout_apiKeyPath, logout_idem,
      EnvVars.empty_restEndpoint, EnvVars.empty_apiKey, EnvVars.empty_host,
      EnvVars.empty_port, resolveProject_empty, resolveHost, resolvePort,
      resolveApiKeyEnv, defaultPort, fileExists, hfile, cachedBranch,
      connect, hreject]
  refine ⟨hE, ?_, ?_, ?_, ?_⟩
  · simp [deleteFile_fs, logout_fs, fileExists_removeFile]
  · rw [hE, finish_prompt]
    exact estab_keyPrompted _ _ _ _ _ _ _ _
  · rw [hE, finish_prompt, estab_fs]
    simp [deleteFile_apiKeyPath, logout_apiKeyPath, readFile_writeFile]
  · rw [hE, finish_prompt, estab_fs]
    simp [deleteFile_apiKeyPath, logout_apiKeyPath, readFile_writeFile, hne]

/-- Claim C4 witness: a concrete world holding a stale cached key the server
rejects; the user then enters an accepted key. -/
theorem C4_witness :
    ((⟨[("/.hw_api_key", "stale")], EnvVars.empty, "",
        ConnState.placeholder, []⟩ : World).env = EnvVars.empty
      ∧ readFile (⟨[("/.hw_api_key", "stale")], EnvVars.empty, "",
          ConnState.placeholder, []⟩ : World).fs
          (World.apiKeyPath ⟨[("/.hw_api_key", "stale")], EnvVars.empty, "",
            ConnState.placeholder, []⟩) = some "stale"
      ∧ (⟨fun key => key == some "new", fun _ => [⟨"p", "u"⟩],
            ⟨"p", "u"⟩⟩ : Server).validKey (some "stale") = false
      ∧ pyStrip "new" ≠ "stale")
  ∧ ((login ⟨none, 443, none, none, none⟩
        ⟨fun key => key == some "new", fun _ => [⟨"p", "u"⟩], ⟨"p", "u"⟩⟩
        "new" []
        ⟨[("/.hw_api_key", "stale")], EnvVars.empty, "",
          ConnState.placeholder, []⟩).keyPrompted = true
      ∧ readFile (login ⟨none, 443, none, none, none⟩
          ⟨fun key => key == some "new", fun _ => [⟨"p", "u"⟩], ⟨"p", "u"⟩⟩
          "new" []
          ⟨[("/.hw_api_key", "stale")], EnvVars.empty, "",
            ConnState.placeholder, []⟩).world.fs
          (World.apiKeyPath ⟨[("/.hw_api_key", "stale")], EnvVars.empty, "",
            ConnState.placeholder, []⟩) = some (pyStrip "new")) :=
  ⟨⟨by decide, by decide, by decide, by decide⟩,
    ⟨(C4_stale_cache_recovery
        ⟨[("/.hw_api_key", "stale")], EnvVars.empty, "",
          ConnState.placeholder, []⟩
        ⟨fun key => key == some "new", fun _ => [⟨"p", "u"⟩], ⟨"p", "u"⟩⟩
        "stale" "new" none []
        (by decide) (by decide) (by decide) (by decide)).2.2.1,
     (C4_stale_cache_recovery
        ⟨[("/.hw_api_key", "stale")], EnvVars.empty, "",
          ConnState.placeholder, []⟩
        ⟨fun key => key == some "new", fun _ => [⟨"p", "u"⟩], ⟨"p", "u"⟩⟩
        "stale" "new" none []
        (by decide) (by decide) (by decide) (by decide)).2.2.2.1⟩⟩

/-- Claim C5 counterexample: the cache write strips the entered key, so a key
entered with surrounding whitespace does not round-trip identically: the
user enters `" abc "` and the reread cache holds `"abc"`. -/
theorem C5_counterexample :
    (login ⟨none, 443, none, none, none⟩
        ⟨fun _ => true, fun _ => [⟨"p", "u"⟩], ⟨"p", "u"⟩⟩ " abc " []
        ⟨[], EnvVars.empty, "", ConnState.placeholder, []⟩).keyPrompted = true
  ∧ readFile (login ⟨none, 443, none, none, none⟩
        ⟨fun _ => true, fun _ => [⟨"p", "u"⟩], ⟨"p", "u"⟩⟩ " abc " []
        ⟨[], EnvVars.empty, "", ConnState.placeholder, []⟩).world.fs
      "/.hw_api_key" = some "abc"
  ∧ ("abc" : String) ≠ " abc " := by
  refine ⟨by decide, by decide, by decide⟩

/-- Claim C5 amended: the cache round-trips the entered key stripped of
surrounding whitespace (`api_key.strip()` is what line 184 persists), so
rereading yields the identical key exactly when the entered value equals
its stripped form. -/
theorem C5_roundtrip_stripped (w : World) (server : Server) (k : String)
    (pa : Option String) (inputs : List String)
    (henv : w.env = EnvVars.empty)
    (hnofile : fileExists w.fs w.apiKeyPath = false)
    (hk : pyStrip k = k) :
    readFile (login ⟨none, 443, pa, none, none⟩ server k inputs w).world.fs
      w.apiKeyPath = some k := by
  have henv' : (logout w).env = EnvVars.empty := by rw [logout_env, henv]
  have hE : login ⟨none, 443, pa, none, none⟩ server k inputs w
      = finishLogin server defaultHost (PortVal.nat 443) none pa k inputs
          (logout w) := by
    simp [login, henv', logout_fs, logout_apiKeyPath,
      EnvVars.empty_restEndpoint, EnvVars.empty_apiKey, EnvVars.empty_host,
      EnvVars.empty_port, resolveProject_empty, resolveHost, resolvePort,
      resolveApiKeyEnv, defaultPort, hnofile]
  rw [hE, finish_prompt, estab_fs]
  simp [logout_apiKeyPath, readFile_writeFile, hk]

/-- Claim C5 witness: a whitespace-free key round-trips identically. -/
theorem C5_witness :
    pyStrip "abc" = "abc"
  ∧ readFile (login ⟨none, 443, none, none, none⟩
        ⟨fun _ => true, fun _ => [⟨"p", "u"⟩], ⟨"p", "u"⟩⟩ "abc" []
        ⟨[], EnvVars.empty, "", ConnState.placeholder, []⟩).world.fs
      (World.apiKeyPath ⟨[], EnvVars.empty, "", ConnState.placeholder, []⟩)
      = some "abc" :=
  ⟨by decide,
    C5_roundtrip_stripped ⟨[], EnvVars.empty, "", ConnState.placeholder, []⟩
      ⟨fun _ => true, fun _ => [⟨"p", "u"⟩], ⟨"p", "u"⟩⟩ "abc" none []
      (by decide) (by decide) (by decide)⟩

end Hopsworks
